import Mathlib

/-!
Verification development for the benchmark-visualizer reporting utility
(`visualization/visualizer.py`).

The Python program is shallowly embedded here:
* JSON numbers are modelled as exact rationals (`ℚ`);
* optional JSON object keys are modelled as `Option` fields, and a Python
  `KeyError` raised by a direct subscript on a missing key is modelled by
  `Except.error`;
* the file-system outcomes seen by the loader are abstracted into the
  inductive `ReadOutcome`;
* the two rendered artifacts (on-figure table, CSV file) are modelled by
  the list of rows `table_data` and by the string `save_table_as_csv`.
-/

unseal Rat.mul Rat.inv Rat.add Rat.sub

namespace Visualizer

/-- One technique bucket: the four always-present derived fields
(`response_time`, `ttfb`, `success_rate`, `throughput`), exactly the
dictionaries built by `extract_metrics_from_data`. -/
structure TechniqueMetrics where
  response_time : ℚ
  ttfb : ℚ
  success_rate : ℚ
  throughput : ℚ
deriving DecidableEq, Repr

/-- The full metrics map over the four fixed technique identifiers. -/
structure Metrics where
  plain_llm : TechniqueMetrics
  streaming : TechniqueMetrics
  cached : TechniqueMetrics
  combined : TechniqueMetrics
deriving DecidableEq, Repr

/-- The nested `ttfb` object of a streaming sub-record (`ttfb.mean`). -/
structure TtfbRec where
  mean : Option ℚ
deriving DecidableEq, Repr

/-- The `streaming` sub-record of one streaming test case. -/
structure StreamingSide where
  mean : Option ℚ
  ttfb : Option TtfbRec
  successRate : Option ℚ
deriving DecidableEq, Repr

/-- The `nonStreaming` sub-record of one streaming test case. -/
structure NonStreamingSide where
  mean : Option ℚ
  successRate : Option ℚ
deriving DecidableEq, Repr

/-- One element of `results.streaming`; either sub-record may be absent. -/
structure StreamingTestCase where
  streaming : Option StreamingSide
  nonStreaming : Option NonStreamingSide
deriving DecidableEq, Repr

/-- The `overall.performance` object of a caching result. -/
structure PerformanceRec where
  warmCacheMean : Option ℚ
deriving DecidableEq, Repr

/-- The `overall` object of a caching result. -/
structure OverallRec where
  performance : Option PerformanceRec
  overallSuccessRate : Option ℚ
deriving DecidableEq, Repr

/-- One element of `results.caching`. -/
structure CachingResult where
  overall : Option OverallRec
deriving DecidableEq, Repr

/-- The `results` mapping: the two recognized categories, each optional. -/
structure ResultsRec where
  streaming : Option (List StreamingTestCase)
  caching : Option (List CachingResult)
deriving DecidableEq, Repr

/-- The raw top-level benchmark record. -/
structure BenchmarkRecord where
  timestamp : Option String
  testType : Option String
  results : Option ResultsRec
deriving DecidableEq, Repr

/-- The all-zero bucket every technique starts from (visualizer.py lines 45-50). -/
def zeroBucket : TechniqueMetrics := ⟨0, 0, 0, 0⟩

/-- The initial metrics map of four zero buckets. -/
def initialMetrics : Metrics := ⟨zeroBucket, zeroBucket, zeroBucket, zeroBucket⟩

/-- Hardcoded default bucket for `plain_llm` (lines 55 and 126). -/
def defaultPlain : TechniqueMetrics := ⟨25800, 25800, 68, 39/1000⟩

/-- Hardcoded default bucket for `streaming` (lines 56 and 128). -/
def defaultStreaming : TechniqueMetrics := ⟨3200, 450, 89, 31/100⟩

/-- Hardcoded default bucket for `cached` (lines 57 and 130). -/
def defaultCached : TechniqueMetrics := ⟨150, 150, 96, 667/100⟩

/-- Hardcoded default bucket for `combined` (lines 58 and 132). -/
def defaultCombined : TechniqueMetrics := ⟨120, 120, 97, 833/100⟩

/-- The metrics map consisting of the four default buckets. -/
def allDefaults : Metrics := ⟨defaultPlain, defaultStreaming, defaultCached, defaultCombined⟩

/-- The five accumulator lists of the streaming loop (lines 68-72). -/
structure StreamAcc where
  streaming_times : List ℚ
  nonstreaming_times : List ℚ
  ttfb_times : List ℚ
  streaming_success : List ℚ
  nonstreaming_success : List ℚ
deriving DecidableEq, Repr

/-- The empty accumulator the loop starts from. -/
def emptyAcc : StreamAcc := ⟨[], [], [], [], []⟩

/-- One iteration of the loop over `results.streaming` (lines 74-83).
A direct subscript on a missing key is a Python `KeyError`, modelled as
`Except.error`; the membership-guarded accesses (`'streaming' in test_case
and 'nonStreaming' in test_case`) cannot fail. -/
def processTestCase (acc : StreamAcc) (tc : StreamingTestCase) : Except String StreamAcc :=
  match tc.streaming, tc.nonStreaming with
  | some s, some ns =>
    match s.successRate with
    | none => .error "KeyError: successRate"
    | some sRate =>
      let step1 : Except String StreamAcc :=
        if sRate > 0 then
          match s.mean with
          | none => .error "KeyError: mean"
          | some sm =>
            match s.ttfb with
            | none => .error "KeyError: ttfb"
            | some t =>
              match t.mean with
              | none => .error "KeyError: mean"
              | some tm =>
                .ok { acc with
                        streaming_times := acc.streaming_times ++ [sm],
                        ttfb_times := acc.ttfb_times ++ [tm],
                        streaming_success := acc.streaming_success ++ [sRate] }
        else .ok acc
      match step1 with
      | .error e => .error e
      | .ok acc1 =>
        match ns.successRate with
        | none => .error "KeyError: successRate"
        | some nRate =>
          if nRate > 0 then
            match ns.mean with
            | none => .error "KeyError: mean"
            | some nm =>
              .ok { acc1 with
                      nonstreaming_times := acc1.nonstreaming_times ++ [nm],
                      nonstreaming_success := acc1.nonstreaming_success ++ [nRate] }
          else .ok acc1
  | _, _ => .ok acc

/-- The whole loop over the streaming test cases, with a raised `KeyError`
propagating out (the Python loop has no local handler). -/
def collectSamples (acc : StreamAcc) : List StreamingTestCase → Except String StreamAcc
  | [] => .ok acc
  | tc :: rest =>
    match processTestCase acc tc with
    | .error e => .error e
    | .ok acc1 => collectSamples acc1 rest

/-- `sum(l) / len(l)` over a list of numbers. -/
def listMean (l : List ℚ) : ℚ := l.sum / (l.length : ℚ)

/-- The streaming bucket written on lines 86-89. -/
def streamBucket (acc : StreamAcc) : TechniqueMetrics :=
  let rt := listMean acc.streaming_times
  { response_time := rt,
    ttfb := listMean acc.ttfb_times,
    success_rate := listMean acc.streaming_success,
    throughput := if rt > 0 then 1000 / rt else 0 }

/-- The plain-LLM bucket written on lines 92-95; its `ttfb` is defined to
be its `response_time`. -/
def plainBucket (acc : StreamAcc) : TechniqueMetrics :=
  let rt := listMean acc.nonstreaming_times
  { response_time := rt,
    ttfb := rt,
    success_rate := listMean acc.nonstreaming_success,
    throughput := if rt > 0 then 1000 / rt else 0 }

/-- Writing the collected averages into the `streaming` and `plain_llm`
buckets (lines 85-95); a bucket is only written when its sample list is
non-empty (Python truthiness of the list). -/
def applyStreamAcc (acc : StreamAcc) (m : Metrics) : Metrics :=
  let m1 := if acc.streaming_times ≠ [] then { m with streaming := streamBucket acc } else m
  if acc.nonstreaming_times ≠ [] then { m1 with plain_llm := plainBucket acc } else m1

/-- The streaming section of the extractor (lines 64-95): only entered when
`results` has a non-empty `streaming` list. -/
def streamPhase (r : ResultsRec) (m : Metrics) : Except String Metrics :=
  match r.streaming with
  | some lst =>
    if lst.length > 0 then
      match collectSamples emptyAcc lst with
      | .error e => .error e
      | .ok acc => .ok (applyStreamAcc acc m)
    else .ok m
  | none => .ok m

/-- The caching section of the extractor (lines 98-112): only the first
element of `results.caching` is consulted, and every nested access is
membership-guarded, so this section never raises. -/
def cachePhase (r : ResultsRec) (m : Metrics) : Metrics :=
  match r.caching with
  | some (c0 :: _) =>
    match c0.overall with
    | some ov =>
      match ov.performance with
      | some perf =>
        let m1 :=
          match perf.warmCacheMean with
          | some wcm =>
            if wcm > 0 then
              { m with cached :=
                  { response_time := wcm,
                    ttfb := wcm,
                    success_rate := m.cached.success_rate,
                    throughput := 1000 / wcm } }
            else m
          | none => m
        match ov.overallSuccessRate with
        | some sr => { m1 with cached := { m1.cached with success_rate := sr } }
        | none => m1
      | none => m
    | none => m
  | _ => m

/-- The combined-metrics derivation (lines 114-120), entered only when the
cached bucket's response time is positive. `0.8` is the exact rational `4/5`. -/
def combinedPhase (m : Metrics) : Metrics :=
  if m.cached.response_time > 0 then
    let rt := m.cached.response_time * (4/5 : ℚ)
    { m with combined :=
        { response_time := rt,
          ttfb := m.cached.ttfb * (4/5 : ℚ),
          success_rate := min 99 (m.cached.success_rate + 1),
          throughput := if rt > 0 then 1000 / rt else 0 } }
  else m

/-- One step of the final fill pass (lines 122-132): a technique whose
response time is still `≤ 0` has its whole bucket replaced by the default. -/
def fillBucket (d b : TechniqueMetrics) : TechniqueMetrics :=
  if b.response_time ≤ 0 then d else b

/-- The final fill pass over all four techniques. -/
def fillPhase (m : Metrics) : Metrics :=
  { plain_llm := fillBucket defaultPlain m.plain_llm,
    streaming := fillBucket defaultStreaming m.streaming,
    cached := fillBucket defaultCached m.cached,
    combined := fillBucket defaultCombined m.combined }

/-- `extract_metrics_from_data` (lines 43-139). `data = none` models Python
`None` (and any falsy record); a record without a `results` key takes the
same all-defaults early return. -/
def extract_metrics_from_data (data : Option BenchmarkRecord) : Except String Metrics :=
  match data with
  | none => .ok allDefaults
  | some rec =>
    match rec.results with
    | none => .ok allDefaults
    | some r =>
      match streamPhase r initialMetrics with
      | .error e => .error e
      | .ok m1 => .ok (fillPhase (combinedPhase (cachePhase r m1)))

/-! ## Loader (`load_latest_results`, lines 29-41)

The file-system outcomes of reading the fixed input path are abstracted
into `ReadOutcome`; the body of the `try` block either produces a value or
raises (`Except.error`), and the `except` handler converts every raised
error into `None`. -/

/-- The possible outcomes of opening and parsing the fixed input file. -/
inductive ReadOutcome where
  | missing
  | readFailure (msg : String)
  | parseFailure (msg : String)
  | parsed (rec : BenchmarkRecord)
deriving DecidableEq, Repr

/-- The `try` body: a missing file returns `None` normally (line 36-37);
an unreadable file or malformed JSON raises. -/
def loadBody : ReadOutcome → Except String (Option BenchmarkRecord)
  | .missing => .ok none
  | .readFailure e => .error e
  | .parseFailure e => .error e
  | .parsed rec => .ok (some rec)

/-- `load_latest_results`: the surrounding `try/except` converts any raised
error into the no-data result `None` (lines 39-41). -/
def load_latest_results (o : ReadOutcome) : Option BenchmarkRecord :=
  match loadBody o with
  | .ok v => v
  | .error _ => none

/-! ## Renderer: summary table and CSV (lines 229-301)

Python `f'{x:.Nf}'` fixed-point formatting is modelled on exact rationals
with round-half-to-even. -/

/-- Round a rational to the nearest integer, ties to even. -/
def roundHalfEven (q : ℚ) : ℤ :=
  let n : ℤ := Int.fdiv q.num q.den
  let frac : ℚ := q - (n : ℚ)
  if frac < 1/2 then n
  else if 1/2 < frac then n + 1
  else if n % 2 = 0 then n else n + 1

/-- Left-pad a digit string with zeros to the given width. -/
def padZeros (s : String) (n : ℕ) : String :=
  String.mk (List.replicate (n - s.length) '0') ++ s

/-- `f'{q:.precf}'`: fixed-point decimal rendering of a rational. -/
def formatFixed (prec : ℕ) (q : ℚ) : String :=
  let scaled := roundHalfEven (q * ((10 ^ prec : ℕ) : ℚ))
  let sign := if scaled < 0 then "-" else ""
  let a := scaled.natAbs
  if prec = 0 then sign ++ toString a
  else sign ++ toString (a / 10 ^ prec) ++ "." ++ padZeros (toString (a % 10 ^ prec)) prec

/-- The `table_data` rows built in `create_comprehensive_comparison`
(lines 195-253): header row plus six metric rows, with the improvement
figures computed from the same metrics. -/
def table_data (m : Metrics) : List (List String) :=
  let baseline := m.plain_llm.response_time
  let lastImp := (baseline - m.combined.response_time) / baseline * 100
  let ttfbImp := (m.plain_llm.ttfb - m.streaming.ttfb) / m.plain_llm.ttfb * 100
  let tpImp := if m.plain_llm.throughput > 0 then m.combined.throughput / m.plain_llm.throughput else 0
  [ ["Metric", "Plain LLM", "Streaming", "Cached", "Combined", "Best Improvement"],
    ["Total Response Time",
      formatFixed 1 (m.plain_llm.response_time / 1000) ++ "s",
      formatFixed 1 (m.streaming.response_time / 1000) ++ "s",
      formatFixed 2 (m.cached.response_time / 1000) ++ "s",
      formatFixed 2 (m.combined.response_time / 1000) ++ "s",
      formatFixed 1 lastImp ++ "% faster"],
    ["Time to First Byte",
      formatFixed 1 (m.plain_llm.ttfb / 1000) ++ "s",
      formatFixed 2 (m.streaming.ttfb / 1000) ++ "s",
      formatFixed 2 (m.cached.ttfb / 1000) ++ "s",
      formatFixed 2 (m.combined.ttfb / 1000) ++ "s",
      formatFixed 0 ttfbImp ++ "% faster TTFB"],
    ["Throughput",
      formatFixed 3 m.plain_llm.throughput ++ " req/s",
      formatFixed 2 m.streaming.throughput ++ " req/s",
      formatFixed 1 m.cached.throughput ++ " req/s",
      formatFixed 1 m.combined.throughput ++ " req/s",
      formatFixed 0 tpImp ++ "x higher"],
    ["Success Rate",
      formatFixed 0 m.plain_llm.success_rate ++ "%",
      formatFixed 0 m.streaming.success_rate ++ "%",
      formatFixed 0 m.cached.success_rate ++ "%",
      formatFixed 0 m.combined.success_rate ++ "%",
      formatFixed 0 (m.combined.success_rate - m.plain_llm.success_rate) ++ "% more reliable"],
    ["User Experience", "Poor (long wait)", "Good (fast start)", "Excellent (instant)", "Outstanding", "Revolutionary"],
    ["Cost Effectiveness", "High cost/req", "Medium cost", "Low cost", "Very Low cost", "Massive savings"] ]

/-- The content handed to the on-figure table panel (line 255):
`colLabels = table_data[0]`, `cellText = table_data[1:]`. -/
structure FigureTable where
  colLabels : List String
  cellText : List (List String)
deriving DecidableEq, Repr

/-- The arguments of the `ax_table.table(...)` call. -/
def figure_table (td : List (List String)) : FigureTable :=
  { colLabels := td.headD [], cellText := td.tail }

/-- One CSV line as written by `save_table_as_csv` (line 295): every cell
wrapped in double quotes, cells joined by commas. -/
def csvRow (row : List String) : String :=
  String.intercalate "," (row.map (fun cell => "\"" ++ cell ++ "\""))

/-- The full text written to `performance_comparison_table.csv`
(lines 290-298): one line per table row, joined by newlines. -/
def save_table_as_csv (td : List (List String)) : String :=
  String.intercalate "\n" (td.map csvRow)

/-- `create_comprehensive_comparison` (lines 141-288) as far as its data
artifact is concerned: extract the metrics and build `table_data`
(chart rendering has no influence on the returned rows). -/
def create_comprehensive_comparison (data : Option BenchmarkRecord) : Except String (List (List String)) :=
  match extract_metrics_from_data data with
  | .error e => .error e
  | .ok m => .ok (table_data m)

/-- The substitute record built in `run_analysis` when the loader returned
no data (line 309): `{'results': {'streaming': []}, 'timestamp': now}`. -/
def substituteData (now : String) : BenchmarkRecord :=
  { timestamp := some now, testType := none, results := some { streaming := some [], caching := none } }

/-- `run_analysis` (lines 303-321) up to the table rows it renders and
saves; `now` is the wall-clock timestamp read when the input is absent. -/
def run_analysis_table (o : ReadOutcome) (now : String) : Except String (List (List String)) :=
  let data :=
    match load_latest_results o with
    | none => substituteData now
    | some d => d
  create_comprehensive_comparison (some data)

/-- The bytes of the CSV artifact produced by one full run of the Reporter. -/
def reporter_csv (o : ReadOutcome) (now : String) : Except String String :=
  match run_analysis_table o now with
  | .error e => .error e
  | .ok td => .ok (save_table_as_csv td)

/-! ## Observation helpers used by the statements -/

/-- Split a character list at a separator character (structural helper for
inspecting the CSV text). -/
def splitCharAux (sep : Char) : List Char → List Char → List String
  | [], cur => [String.mk cur.reverse]
  | c :: rest, cur =>
    if c = sep then String.mk cur.reverse :: splitCharAux sep rest []
    else splitCharAux sep rest (c :: cur)

/-- Split a string at every occurrence of a separator character. -/
def splitChar (sep : Char) (s : String) : List String :=
  splitCharAux sep s.data []

/-- Spec-side CSV rendering, following the spec text: every field is
individually wrapped in double quotes, fields are joined by commas, and
there is one line per row. -/
def specQuoteField (s : String) : String := "\"" ++ s ++ "\""

/-- Spec-side rendering of one row. -/
def specRenderRow (row : List String) : String :=
  String.intercalate "," (row.map specQuoteField)

/-- Spec-side rendering of a whole table, one line per row. -/
def specRenderTable (rows : List (List String)) : String :=
  String.intercalate "\n" (rows.map specRenderRow)

/-- Throughput consistency of one bucket: whenever its response time is
positive, its throughput is exactly `1000 / response_time`. -/
def Qb (b : TechniqueMetrics) : Prop :=
  0 < b.response_time → b.throughput = 1000 / b.response_time

/-- What extraction guarantees for one bucket with default `d`: the bucket
is the default, or it was computed from data, has a positive response time
and an exact `1000 / response_time` throughput. -/
def bucketSpec (d b : TechniqueMetrics) : Prop :=
  b = d ∨ (0 < b.response_time ∧ b.throughput = 1000 / b.response_time)

/-- Relation between the combined and cached buckets after extraction:
either both fell back to their static defaults together (cached had no
real data), or combined was derived by the 0.8 / 0.8 / `min(99, +1)` rule
of lines 114-120 from a cached bucket genuinely built from caching data —
one with a positive response time and an exact `1000 / response_time`
throughput, which no default bucket has (their throughput constants are
rounded), so neither bucket of the derivation disjunct is a default. -/
def combinedRel (m : Metrics) : Prop :=
  (m.combined = defaultCombined ∧ m.cached = defaultCached) ∨
  (m.cached ≠ defaultCached ∧
   m.combined ≠ defaultCombined ∧
   0 < m.cached.response_time ∧
   m.cached.throughput = 1000 / m.cached.response_time ∧
   m.combined.response_time = m.cached.response_time * (4/5) ∧
   m.combined.ttfb = m.cached.ttfb * (4/5) ∧
   m.combined.success_rate = min 99 (m.cached.success_rate + 1) ∧
   m.combined.throughput = 1000 / m.combined.response_time)

/-- The combined post-extraction guarantee. -/
def MetricsSpec (m : Metrics) : Prop :=
  bucketSpec defaultPlain m.plain_llm ∧
  bucketSpec defaultStreaming m.streaming ∧
  bucketSpec defaultCached m.cached ∧
  bucketSpec defaultCombined m.combined ∧
  combinedRel m ∧
  m.plain_llm.ttfb = m.plain_llm.response_time

/-- The streaming `mean` samples a list of test cases contributes: only
test cases carrying both sub-records and a positive `streaming.successRate`
contribute. -/
def streamSampleTimes (lst : List StreamingTestCase) : List ℚ :=
  lst.filterMap fun tc =>
    match tc.streaming, tc.nonStreaming with
    | some s, some _ =>
      match s.successRate with
      | some rate => if rate > 0 then s.mean else none
      | none => none
    | _, _ => none

/-- The contributed streaming `ttfb.mean` samples. -/
def streamSampleTtfb (lst : List StreamingTestCase) : List ℚ :=
  lst.filterMap fun tc =>
    match tc.streaming, tc.nonStreaming with
    | some s, some _ =>
      match s.successRate with
      | some rate => if rate > 0 then (match s.ttfb with | some t => t.mean | none => none) else none
      | none => none
    | _, _ => none

/-- The contributed streaming success-rate samples. -/
def streamSampleRates (lst : List StreamingTestCase) : List ℚ :=
  lst.filterMap fun tc =>
    match tc.streaming, tc.nonStreaming with
    | some s, some _ =>
      match s.successRate with
      | some rate => if rate > 0 then some rate else none
      | none => none
    | _, _ => none

/-- The contributed non-streaming `mean` samples. -/
def nonStreamTimes (lst : List StreamingTestCase) : List ℚ :=
  lst.filterMap fun tc =>
    match tc.streaming, tc.nonStreaming with
    | some _, some ns =>
      match ns.successRate with
      | some rate => if rate > 0 then ns.mean else none
      | none => none
    | _, _ => none

/-- The contributed non-streaming success-rate samples. -/
def nonStreamRates (lst : List StreamingTestCase) : List ℚ :=
  lst.filterMap fun tc =>
    match tc.streaming, tc.nonStreaming with
    | some _, some ns =>
      match ns.successRate with
      | some rate => if rate > 0 then some rate else none
      | none => none
    | _, _ => none

/-- A test case is fully populated: whenever both sub-records are present,
the fields the loop dereferences exist (`successRate` always; `mean` and
`ttfb.mean` only when the corresponding rate is positive). -/
def wfTCB (tc : StreamingTestCase) : Bool :=
  match tc.streaming, tc.nonStreaming with
  | some s, some ns =>
    (match s.successRate with
     | some rate =>
       if rate > 0 then
         s.mean.isSome && (match s.ttfb with | some t => t.mean.isSome | none => false)
       else true
     | none => false) &&
    (match ns.successRate with
     | some rate => if rate > 0 then ns.mean.isSome else true
     | none => false)
  | _, _ => true

/-- Every streaming test case of the record is fully populated. -/
def wfDataB (data : Option BenchmarkRecord) : Bool :=
  match data with
  | none => true
  | some rec =>
    match rec.results with
    | none => true
    | some r =>
      match r.streaming with
      | some lst => lst.all wfTCB
      | none => true

/-- Both success rates of a test case are literally `0` (whenever both
sub-records are present). -/
def zeroRatesB (tc : StreamingTestCase) : Bool :=
  match tc.streaming, tc.nonStreaming with
  | some s, some ns => if s.successRate = some 0 ∧ ns.successRate = some 0 then true else false
  | _, _ => true

/-- Every streaming test case of the results has only zero success rates. -/
def allZeroRates (r : ResultsRec) : Bool :=
  match r.streaming with
  | some lst => lst.all zeroRatesB
  | none => true

/-- The warm-cache mean the caching section would read, if every guard on
the way to it passes. -/
def firstWarmCacheMean (r : ResultsRec) : Option ℚ :=
  match r.caching with
  | some (c0 :: _) =>
    match c0.overall with
    | some ov =>
      match ov.performance with
      | some perf => perf.warmCacheMean
      | none => none
    | none => none
  | _ => none

/-- The caching data carries no positive warm-cache mean. -/
def noWarmCacheB (r : ResultsRec) : Bool :=
  match firstWarmCacheMean r with
  | some w => if w ≤ 0 then true else false
  | none => true

/-! ## Concrete records used by the claims -/

/-- The worked example test case of the spec (streaming mean 500,
ttfb.mean 100, successRate 100; nonStreaming mean 20000, successRate 90). -/
def specExampleCase : StreamingTestCase :=
  { streaming := some { mean := some 500, ttfb := some { mean := some 100 }, successRate := some 100 },
    nonStreaming := some { mean := some 20000, successRate := some 90 } }

/-- The worked example record of the spec. -/
def specExampleRecord : BenchmarkRecord :=
  { timestamp := none, testType := none,
    results := some { streaming := some [specExampleCase], caching := none } }

/-- What extraction returns on `specExampleRecord`. -/
def specExampleMetrics : Metrics :=
  { plain_llm := ⟨20000, 20000, 90, 1/20⟩,
    streaming := ⟨500, 100, 100, 2⟩,
    cached := defaultCached,
    combined := defaultCombined }

/-- The worked caching example of the spec: `warmCacheMean = 200`,
`overallSuccessRate = 95`. -/
def cachingExampleRecord : BenchmarkRecord :=
  { timestamp := none, testType := none,
    results := some { streaming := none,
                      caching := some [{ overall := some { performance := some { warmCacheMean := some 200 },
                                                           overallSuccessRate := some 95 } }] } }

/-- What extraction returns on `cachingExampleRecord`. -/
def cachingExampleMetrics : Metrics :=
  { plain_llm := defaultPlain,
    streaming := defaultStreaming,
    cached := ⟨200, 200, 95, 5⟩,
    combined := ⟨160, 160, 96, 25/4⟩ }

/-- A test case whose streaming ttfb mean is 0 while everything else is
positive: its bucket survives the fill pass with a non-positive field. -/
def ttfbZeroCase : StreamingTestCase :=
  { streaming := some { mean := some 500, ttfb := some { mean := some 0 }, successRate := some 100 },
    nonStreaming := some { mean := some 20000, successRate := some 90 } }

/-- Record wrapping `ttfbZeroCase`. -/
def ttfbZeroRecord : BenchmarkRecord :=
  { timestamp := none, testType := none,
    results := some { streaming := some [ttfbZeroCase], caching := none } }

/-- A test case with a positive `streaming.successRate` but no `mean` key:
dereferencing it raises a `KeyError`. -/
def missingMeanCase : StreamingTestCase :=
  { streaming := some { mean := none, ttfb := none, successRate := some 100 },
    nonStreaming := some { mean := some 20000, successRate := some 90 } }

/-- Record wrapping `missingMeanCase`. -/
def missingMeanRecord : BenchmarkRecord :=
  { timestamp := none, testType := none,
    results := some { streaming := some [missingMeanCase], caching := none } }

/-- A test case carrying a positive `streaming.successRate` and full
streaming data but no `nonStreaming` sub-record: the loop skips it. -/
def streamOnlyCase : StreamingTestCase :=
  { streaming := some { mean := some 500, ttfb := some { mean := some 100 }, successRate := some 100 },
    nonStreaming := none }

/-- Record wrapping `streamOnlyCase`. -/
def streamOnlyRecord : BenchmarkRecord :=
  { timestamp := none, testType := none,
    results := some { streaming := some [streamOnlyCase], caching := none } }

/-- A test case in which both success rates are 0. -/
def zeroRateCase : StreamingTestCase :=
  { streaming := some { mean := some 500, ttfb := some { mean := some 100 }, successRate := some 0 },
    nonStreaming := some { mean := some 20000, successRate := some 0 } }

/-- A record in which every successRate field is 0, yet the caching data
carries a positive warm-cache mean. -/
def zeroRateCachingRecord : BenchmarkRecord :=
  { timestamp := none, testType := none,
    results := some { streaming := some [zeroRateCase],
                      caching := some [{ overall := some { performance := some { warmCacheMean := some 200 },
                                                           overallSuccessRate := some 0 } }] } }

/-- A record in which every successRate field is 0 and there is no caching
data. -/
def zeroRateOnlyRecord : BenchmarkRecord :=
  { timestamp := none, testType := none,
    results := some { streaming := some [zeroRateCase], caching := none } }

/-! ## Helper lemmas about the extraction phases -/

theorem Qb_zero : Qb zeroBucket := fun h0 => absurd h0 (lt_irrefl 0)

theorem metricsSpec_defaults : MetricsSpec allDefaults :=
  ⟨Or.inl rfl, Or.inl rfl, Or.inl rfl, Or.inl rfl, Or.inl ⟨rfl, rfl⟩, rfl⟩

theorem streamBucket_Qb (acc : StreamAcc) : Qb (streamBucket acc) := by
  intro h
  unfold streamBucket at h ⊢
  dsimp only at h ⊢
  rw [if_pos h]

theorem plainBucket_Qb (acc : StreamAcc) : Qb (plainBucket acc) := by
  intro h
  unfold plainBucket at h ⊢
  dsimp only at h ⊢
  rw [if_pos h]

theorem applyStreamAcc_cached (acc : StreamAcc) (m : Metrics) :
    (applyStreamAcc acc m).cached = m.cached := by
  unfold applyStreamAcc
  dsimp only
  split <;> split <;> rfl

theorem applyStreamAcc_combined (acc : StreamAcc) (m : Metrics) :
    (applyStreamAcc acc m).combined = m.combined := by
  unfold applyStreamAcc
  dsimp only
  split <;> split <;> rfl

theorem applyStreamAcc_streaming (acc : StreamAcc) (m : Metrics) :
    (applyStreamAcc acc m).streaming = streamBucket acc ∨
    (applyStreamAcc acc m).streaming = m.streaming := by
  unfold applyStreamAcc
  dsimp only
  split <;> split
  all_goals first
    | exact Or.inl rfl
    | exact Or.inr rfl

theorem applyStreamAcc_plain (acc : StreamAcc) (m : Metrics) :
    (applyStreamAcc acc m).plain_llm = plainBucket acc ∨
    (applyStreamAcc acc m).plain_llm = m.plain_llm := by
  unfold applyStreamAcc
  dsimp only
  split <;> split
  all_goals first
    | exact Or.inl rfl
    | exact Or.inr rfl

theorem streamPhase_ok_facts (r : ResultsRec) (m1 : Metrics)
    (h : streamPhase r initialMetrics = .ok m1) :
    Qb m1.streaming ∧ Qb m1.plain_llm ∧ m1.plain_llm.ttfb = m1.plain_llm.response_time ∧
    m1.cached = zeroBucket ∧ m1.combined = zeroBucket := by
  have base : Qb initialMetrics.streaming ∧ Qb initialMetrics.plain_llm ∧
      initialMetrics.plain_llm.ttfb = initialMetrics.plain_llm.response_time :=
    ⟨Qb_zero, Qb_zero, rfl⟩
  unfold streamPhase at h
  cases hs : r.streaming with
  | none =>
    rw [hs] at h
    cases h
    exact ⟨base.1, base.2.1, base.2.2, rfl, rfl⟩
  | some lst =>
    rw [hs] at h
    dsimp only at h
    by_cases hl : lst.length > 0
    · rw [if_pos hl] at h
      cases hc : collectSamples emptyAcc lst with
      | error e => rw [hc] at h; cases h
      | ok acc =>
        rw [hc] at h
        cases h
        refine ⟨?_, ?_, ?_, applyStreamAcc_cached acc initialMetrics,
          applyStreamAcc_combined acc initialMetrics⟩
        · rcases applyStreamAcc_streaming acc initialMetrics with h1 | h1 <;> rw [h1]
          · exact streamBucket_Qb acc
          · exact base.1
        · rcases applyStreamAcc_plain acc initialMetrics with h1 | h1 <;> rw [h1]
          · exact plainBucket_Qb acc
          · exact base.2.1
        · rcases applyStreamAcc_plain acc initialMetrics with h1 | h1 <;> rw [h1]
          · rfl
          · exact base.2.2
    · rw [if_neg hl] at h
      cases h
      exact ⟨base.1, base.2.1, base.2.2, rfl, rfl⟩

theorem cachePhase_facts (r : ResultsRec) (m : Metrics) :
    (cachePhase r m).plain_llm = m.plain_llm ∧
    (cachePhase r m).streaming = m.streaming ∧
    (cachePhase r m).combined = m.combined ∧
    (Qb m.cached → Qb (cachePhase r m).cached) := by
  obtain ⟨rs, rc⟩ := r
  rcases rc with _ | cs
  · exact ⟨rfl, rfl, rfl, fun hq => hq⟩
  rcases cs with _ | ⟨c0, rest⟩
  · exact ⟨rfl, rfl, rfl, fun hq => hq⟩
  obtain ⟨ov⟩ := c0
  rcases ov with _ | ov
  · exact ⟨rfl, rfl, rfl, fun hq => hq⟩
  obtain ⟨perf, sr⟩ := ov
  rcases perf with _ | perf
  · exact ⟨rfl, rfl, rfl, fun hq => hq⟩
  obtain ⟨wcm⟩ := perf
  rcases wcm with _ | w
  · rcases sr with _ | v
    · exact ⟨rfl, rfl, rfl, fun hq => hq⟩
    · exact ⟨rfl, rfl, rfl, fun hq h0 => hq h0⟩
  · rcases sr with _ | v
    · unfold cachePhase
      dsimp only
      split
      · exact ⟨rfl, rfl, rfl, fun _ _ => rfl⟩
      · exact ⟨rfl, rfl, rfl, fun hq => hq⟩
    · unfold cachePhase
      dsimp only
      split
      · exact ⟨rfl, rfl, rfl, fun _ _ => rfl⟩
      · exact ⟨rfl, rfl, rfl, fun hq h0 => hq h0⟩

theorem combinedPhase_facts (m : Metrics) :
    (combinedPhase m).plain_llm = m.plain_llm ∧
    (combinedPhase m).streaming = m.streaming ∧
    (combinedPhase m).cached = m.cached ∧
    (0 < m.cached.response_time →
      (combinedPhase m).combined =
        ⟨m.cached.response_time * (4/5), m.cached.ttfb * (4/5),
         min 99 (m.cached.success_rate + 1),
         if m.cached.response_time * (4/5) > 0 then 1000 / (m.cached.response_time * (4/5)) else 0⟩) ∧
    (¬ 0 < m.cached.response_time → (combinedPhase m).combined = m.combined) := by
  unfold combinedPhase
  dsimp only
  split
  · next hp => exact ⟨rfl, rfl, rfl, fun _ => rfl, fun hn => absurd hp hn⟩
  · next hn => exact ⟨rfl, rfl, rfl, fun hp => absurd hp hn, fun _ => rfl⟩

theorem fillBucket_spec (d b : TechniqueMetrics) (hq : Qb b) : bucketSpec d (fillBucket d b) := by
  unfold fillBucket
  split
  · exact Or.inl rfl
  · next h =>
    have hpos := lt_of_not_le h
    exact Or.inr ⟨hpos, hq hpos⟩

theorem fillBucket_keep (d b : TechniqueMetrics) (h : 0 < b.response_time) :
    fillBucket d b = b := if_neg (not_le.mpr h)

theorem fillBucket_default (d b : TechniqueMetrics) (h : b.response_time ≤ 0) :
    fillBucket d b = d := if_pos h

/-- A bucket obeying the exact reciprocal law differs from any bucket that
violates it — in particular from every hardcoded default bucket, whose
throughput constants are rounded. -/
theorem reciprocal_ne_default (b d : TechniqueMetrics)
    (h2 : b.throughput = 1000 / b.response_time)
    (hd : d.throughput ≠ 1000 / d.response_time) : b ≠ d := by
  intro he
  rw [he] at h2
  exact absurd h2 hd

theorem bucketSpec_pos (d b : TechniqueMetrics) (hd1 : 0 < d.response_time)
    (hd2 : 0 < d.throughput) (h : bucketSpec d b) :
    0 < b.response_time ∧ 0 < b.throughput := by
  rcases h with h | ⟨h1, h2⟩
  · rw [h]; exact ⟨hd1, hd2⟩
  · refine ⟨h1, ?_⟩
    rw [h2]
    exact div_pos (by norm_num) h1

/-- Master characterization: every successful extraction satisfies
`MetricsSpec`. -/
theorem extract_ok_spec (data : Option BenchmarkRecord) (m : Metrics)
    (h : extract_metrics_from_data data = .ok m) : MetricsSpec m := by
  unfold extract_metrics_from_data at h
  cases data with
  | none => cases h; exact metricsSpec_defaults
  | some rec =>
    dsimp only at h
    cases hres : rec.results with
    | none => rw [hres] at h; cases h; exact metricsSpec_defaults
    | some r =>
      rw [hres] at h
      dsimp only at h
      cases hs : streamPhase r initialMetrics with
      | error e => rw [hs] at h; cases h
      | ok m1 =>
        rw [hs] at h
        cases h
        obtain ⟨q_st, q_pl, pl_ttfb, hc0, hb0⟩ := streamPhase_ok_facts r m1 hs
        obtain ⟨cp_pl, cp_st, cp_cb, cp_q⟩ := cachePhase_facts r m1
        obtain ⟨bp_pl, bp_st, bp_ca, bp_taken, bp_skip⟩ := combinedPhase_facts (cachePhase r m1)
        have q_pl3 : Qb (combinedPhase (cachePhase r m1)).plain_llm := by
          rw [bp_pl, cp_pl]; exact q_pl
        have q_st3 : Qb (combinedPhase (cachePhase r m1)).streaming := by
          rw [bp_st, cp_st]; exact q_st
        have q_ca2 : Qb (cachePhase r m1).cached := cp_q (by rw [hc0]; exact Qb_zero)
        have q_ca3 : Qb (combinedPhase (cachePhase r m1)).cached := by
          rw [bp_ca]; exact q_ca2
        have ttfb3 : (combinedPhase (cachePhase r m1)).plain_llm.ttfb =
            (combinedPhase (cachePhase r m1)).plain_llm.response_time := by
          rw [bp_pl, cp_pl]; exact pl_ttfb
        by_cases hct : 0 < (cachePhase r m1).cached.response_time
        · have hcomb := bp_taken hct
          have hrt : 0 < (cachePhase r m1).cached.response_time * (4/5) :=
            mul_pos hct (by norm_num)
          have q_cb3 : Qb (combinedPhase (cachePhase r m1)).combined := by
            rw [hcomb]
            intro h0
            dsimp only at h0 ⊢
            rw [if_pos h0]
          have keep_ca : fillBucket defaultCached (combinedPhase (cachePhase r m1)).cached =
              (combinedPhase (cachePhase r m1)).cached := by
            apply fillBucket_keep
            rw [bp_ca]; exact hct
          have keep_cb : fillBucket defaultCombined (combinedPhase (cachePhase r m1)).combined =
              (combinedPhase (cachePhase r m1)).combined := by
            apply fillBucket_keep
            rw [hcomb]; exact hrt
          have e1 : (fillPhase (combinedPhase (cachePhase r m1))).combined =
              fillBucket defaultCombined (combinedPhase (cachePhase r m1)).combined := rfl
          have e2 : (fillPhase (combinedPhase (cachePhase r m1))).cached =
              fillBucket defaultCached (combinedPhase (cachePhase r m1)).cached := rfl
          have e3 : (fillPhase (combinedPhase (cachePhase r m1))).plain_llm =
              fillBucket defaultPlain (combinedPhase (cachePhase r m1)).plain_llm := rfl
          refine ⟨fillBucket_spec _ _ q_pl3, fillBucket_spec _ _ q_st3,
            fillBucket_spec _ _ q_ca3, fillBucket_spec _ _ q_cb3, Or.inr ?_, ?_⟩
          · rw [e1, e2, keep_ca, keep_cb, hcomb, bp_ca]
            have hca_tp : (cachePhase r m1).cached.throughput
                = 1000 / (cachePhase r m1).cached.response_time := q_ca2 hct
            refine ⟨reciprocal_ne_default _ _ hca_tp (by decide), ?_, hct, hca_tp,
              rfl, rfl, rfl, ?_⟩
            · refine reciprocal_ne_default _ _ ?_ (by decide)
              dsimp only
              exact if_pos hrt
            · dsimp only
              exact if_pos hrt
          · rw [e3]
            unfold fillBucket
            split
            · rfl
            · exact ttfb3
        · have hcomb := bp_skip hct
          have hcb0 : (combinedPhase (cachePhase r m1)).combined = zeroBucket := by
            rw [hcomb, cp_cb, hb0]
          have q_cb3 : Qb (combinedPhase (cachePhase r m1)).combined := by
            rw [hcb0]; exact Qb_zero
          have def_ca : fillBucket defaultCached (combinedPhase (cachePhase r m1)).cached =
              defaultCached := by
            apply fillBucket_default
            rw [bp_ca]; exact not_lt.mp hct
          have def_cb : fillBucket defaultCombined (combinedPhase (cachePhase r m1)).combined =
              defaultCombined := by
            apply fillBucket_default
            rw [hcb0]
            exact le_refl 0
          have e1 : (fillPhase (combinedPhase (cachePhase r m1))).combined =
              fillBucket defaultCombined (combinedPhase (cachePhase r m1)).combined := rfl
          have e2 : (fillPhase (combinedPhase (cachePhase r m1))).cached =
              fillBucket defaultCached (combinedPhase (cachePhase r m1)).cached := rfl
          have e3 : (fillPhase (combinedPhase (cachePhase r m1))).plain_llm =
              fillBucket defaultPlain (combinedPhase (cachePhase r m1)).plain_llm := rfl
          refine ⟨fillBucket_spec _ _ q_pl3, fillBucket_spec _ _ q_st3,
            fillBucket_spec _ _ q_ca3, fillBucket_spec _ _ q_cb3, Or.inl ?_, ?_⟩
          · rw [e1, e2, def_ca, def_cb]
            exact ⟨rfl, rfl⟩
          · rw [e3]
            unfold fillBucket
            split
            · rfl
            · exact ttfb3

theorem filterMap_singleton_append {α β : Type} (f : α → Option β) (a : α) (l : List α) :
    List.filterMap f (a :: l) = List.filterMap f [a] ++ List.filterMap f l := by
  cases h : f a <;> simp [List.filterMap_cons, h]

theorem streamSampleTimes_cons (tc : StreamingTestCase) (rest : List StreamingTestCase) :
    streamSampleTimes (tc :: rest) = streamSampleTimes [tc] ++ streamSampleTimes rest :=
  filterMap_singleton_append _ tc rest

theorem streamSampleTtfb_cons (tc : StreamingTestCase) (rest : List StreamingTestCase) :
    streamSampleTtfb (tc :: rest) = streamSampleTtfb [tc] ++ streamSampleTtfb rest :=
  filterMap_singleton_append _ tc rest

theorem streamSampleRates_cons (tc : StreamingTestCase) (rest : List StreamingTestCase) :
    streamSampleRates (tc :: rest) = streamSampleRates [tc] ++ streamSampleRates rest :=
  filterMap_singleton_append _ tc rest

theorem nonStreamTimes_cons (tc : StreamingTestCase) (rest : List StreamingTestCase) :
    nonStreamTimes (tc :: rest) = nonStreamTimes [tc] ++ nonStreamTimes rest :=
  filterMap_singleton_append _ tc rest

theorem nonStreamRates_cons (tc : StreamingTestCase) (rest : List StreamingTestCase) :
    nonStreamRates (tc :: rest) = nonStreamRates [tc] ++ nonStreamRates rest :=
  filterMap_singleton_append _ tc rest

/-- One successful loop iteration appends exactly the contributions of the
processed test case to the five sample lists. -/
theorem processTestCase_ok (acc acc2 : StreamAcc) (tc : StreamingTestCase)
    (h : processTestCase acc tc = .ok acc2) :
    acc2.streaming_times = acc.streaming_times ++ streamSampleTimes [tc] ∧
    acc2.ttfb_times = acc.ttfb_times ++ streamSampleTtfb [tc] ∧
    acc2.streaming_success = acc.streaming_success ++ streamSampleRates [tc] ∧
    acc2.nonstreaming_times = acc.nonstreaming_times ++ nonStreamTimes [tc] ∧
    acc2.nonstreaming_success = acc.nonstreaming_success ++ nonStreamRates [tc] := by
  obtain ⟨so, no⟩ := tc
  rcases so with _ | s
  · unfold processTestCase at h
    dsimp only at h
    cases h
    refine ⟨?_, ?_, ?_, ?_, ?_⟩ <;>
      simp [streamSampleTimes, streamSampleTtfb, streamSampleRates, nonStreamTimes, nonStreamRates]
  rcases no with _ | ns
  · unfold processTestCase at h
    dsimp only at h
    cases h
    refine ⟨?_, ?_, ?_, ?_, ?_⟩ <;>
      simp [streamSampleTimes, streamSampleTtfb, streamSampleRates, nonStreamTimes, nonStreamRates]
  obtain ⟨sm, st, sr⟩ := s
  obtain ⟨nm, nr⟩ := ns
  unfold processTestCase at h
  dsimp only at h
  rcases sr with _ | rate
  · cases h
  dsimp only at h
  by_cases hr : rate > 0
  · rw [if_pos hr] at h
    rcases sm with _ | smv
    · dsimp only at h; cases h
    rcases st with _ | ⟨tm⟩
    · dsimp only at h; cases h
    rcases tm with _ | tmv
    · dsimp only at h; cases h
    dsimp only at h
    rcases nr with _ | nrate
    · cases h
    dsimp only at h
    by_cases hn : nrate > 0
    · rw [if_pos hn] at h
      rcases nm with _ | nmv
      · dsimp only at h; cases h
      dsimp only at h
      cases h
      refine ⟨?_, ?_, ?_, ?_, ?_⟩ <;>
        simp [streamSampleTimes, streamSampleTtfb, streamSampleRates, nonStreamTimes,
          nonStreamRates, hr, hn]
    · rw [if_neg hn] at h
      cases h
      refine ⟨?_, ?_, ?_, ?_, ?_⟩ <;>
        simp [streamSampleTimes, streamSampleTtfb, streamSampleRates, nonStreamTimes,
          nonStreamRates, hr, hn]
  · rw [if_neg hr] at h
    dsimp only at h
    rcases nr with _ | nrate
    · cases h
    dsimp only at h
    by_cases hn : nrate > 0
    · rw [if_pos hn] at h
      rcases nm with _ | nmv
      · dsimp only at h; cases h
      dsimp only at h
      cases h
      refine ⟨?_, ?_, ?_, ?_, ?_⟩ <;>
        simp [streamSampleTimes, streamSampleTtfb, streamSampleRates, nonStreamTimes,
          nonStreamRates, hr, hn]
    · rw [if_neg hn] at h
      cases h
      refine ⟨?_, ?_, ?_, ?_, ?_⟩ <;>
        simp [streamSampleTimes, streamSampleTtfb, streamSampleRates, nonStreamTimes,
          nonStreamRates, hr, hn]

/-- A successful run of the whole loop collects exactly the qualifying
contributions, in input order. -/
theorem collectSamples_ok_lists : ∀ (lst : List StreamingTestCase) (acc0 acc : StreamAcc),
    collectSamples acc0 lst = .ok acc →
    acc.streaming_times = acc0.streaming_times ++ streamSampleTimes lst ∧
    acc.ttfb_times = acc0.ttfb_times ++ streamSampleTtfb lst ∧
    acc.streaming_success = acc0.streaming_success ++ streamSampleRates lst ∧
    acc.nonstreaming_times = acc0.nonstreaming_times ++ nonStreamTimes lst ∧
    acc.nonstreaming_success = acc0.nonstreaming_success ++ nonStreamRates lst := by
  intro lst
  induction lst with
  | nil =>
    intro acc0 acc h
    cases h
    refine ⟨?_, ?_, ?_, ?_, ?_⟩ <;>
      simp [streamSampleTimes, streamSampleTtfb, streamSampleRates, nonStreamTimes, nonStreamRates]
  | cons tc rest ih =>
    intro acc0 acc h
    unfold collectSamples at h
    cases hp : processTestCase acc0 tc with
    | error e => rw [hp] at h; cases h
    | ok acc1 =>
      rw [hp] at h
      dsimp only at h
      obtain ⟨e1, e2, e3, e4, e5⟩ := processTestCase_ok acc0 acc1 tc hp
      obtain ⟨f1, f2, f3, f4, f5⟩ := ih acc1 acc h
      refine ⟨?_, ?_, ?_, ?_, ?_⟩
      · rw [streamSampleTimes_cons, f1, e1, List.append_assoc]
      · rw [streamSampleTtfb_cons, f2, e2, List.append_assoc]
      · rw [streamSampleRates_cons, f3, e3, List.append_assoc]
      · rw [nonStreamTimes_cons, f4, e4, List.append_assoc]
      · rw [nonStreamRates_cons, f5, e5, List.append_assoc]

/-- Collecting from the empty accumulator yields exactly the spec lists. -/
theorem collectSamples_from_empty (lst : List StreamingTestCase) (acc : StreamAcc)
    (h : collectSamples emptyAcc lst = .ok acc) :
    acc.streaming_times = streamSampleTimes lst ∧
    acc.ttfb_times = streamSampleTtfb lst ∧
    acc.streaming_success = streamSampleRates lst ∧
    acc.nonstreaming_times = nonStreamTimes lst ∧
    acc.nonstreaming_success = nonStreamRates lst := by
  obtain ⟨e1, e2, e3, e4, e5⟩ := collectSamples_ok_lists lst emptyAcc acc h
  refine ⟨?_, ?_, ?_, ?_, ?_⟩
  · simpa [emptyAcc] using e1
  · simpa [emptyAcc] using e2
  · simpa [emptyAcc] using e3
  · simpa [emptyAcc] using e4
  · simpa [emptyAcc] using e5

/-- A fully-populated test case never makes the loop iteration raise. -/
theorem processTestCase_wf (acc : StreamAcc) (tc : StreamingTestCase) (hw : wfTCB tc = true) :
    ∃ acc2, processTestCase acc tc = .ok acc2 := by
  obtain ⟨so, no⟩ := tc
  rcases so with _ | s
  · exact ⟨acc, rfl⟩
  rcases no with _ | ns
  · exact ⟨acc, rfl⟩
  obtain ⟨sm, st, sr⟩ := s
  obtain ⟨nm, nr⟩ := ns
  unfold wfTCB at hw
  dsimp only at hw
  rw [Bool.and_eq_true] at hw
  obtain ⟨hw1, hw2⟩ := hw
  rcases sr with _ | rate
  · simp at hw1
  rcases nr with _ | nrate
  · simp at hw2
  dsimp only at hw1 hw2
  by_cases hr : rate > 0
  · rw [if_pos hr] at hw1
    rw [Bool.and_eq_true] at hw1
    obtain ⟨hsm, hst⟩ := hw1
    rcases sm with _ | smv
    · simp at hsm
    rcases st with _ | ⟨tm⟩
    · simp at hst
    rcases tm with _ | tmv
    · simp at hst
    by_cases hn : nrate > 0
    · rw [if_pos hn] at hw2
      rcases nm with _ | nmv
      · simp at hw2
      refine ⟨{ acc with
          streaming_times := acc.streaming_times ++ [smv],
          ttfb_times := acc.ttfb_times ++ [tmv],
          streaming_success := acc.streaming_success ++ [rate],
          nonstreaming_times := acc.nonstreaming_times ++ [nmv],
          nonstreaming_success := acc.nonstreaming_success ++ [nrate] }, ?_⟩
      unfold processTestCase
      dsimp only
      rw [if_pos hr]
      dsimp only
      rw [if_pos hn]
    · refine ⟨{ acc with
          streaming_times := acc.streaming_times ++ [smv],
          ttfb_times := acc.ttfb_times ++ [tmv],
          streaming_success := acc.streaming_success ++ [rate] }, ?_⟩
      unfold processTestCase
      dsimp only
      rw [if_pos hr]
      dsimp only
      rw [if_neg hn]
  · by_cases hn : nrate > 0
    · rw [if_pos hn] at hw2
      rcases nm with _ | nmv
      · simp at hw2
      refine ⟨{ acc with
          nonstreaming_times := acc.nonstreaming_times ++ [nmv],
          nonstreaming_success := acc.nonstreaming_success ++ [nrate] }, ?_⟩
      unfold processTestCase
      dsimp only
      rw [if_neg hr]
      dsimp only
      rw [if_pos hn]
    · refine ⟨acc, ?_⟩
      unfold processTestCase
      dsimp only
      rw [if_neg hr]
      dsimp only
      rw [if_neg hn]

/-- The whole loop never raises on fully-populated test cases. -/
theorem collectSamples_wf : ∀ (lst : List StreamingTestCase), lst.all wfTCB = true →
    ∀ acc, ∃ acc2, collectSamples acc lst = .ok acc2 := by
  intro lst
  induction lst with
  | nil => intro _ acc; exact ⟨acc, rfl⟩
  | cons tc rest ih =>
    intro hw acc
    rw [List.all_cons, Bool.and_eq_true] at hw
    obtain ⟨acc1, hp⟩ := processTestCase_wf acc tc hw.1
    obtain ⟨acc2, hrest⟩ := ih hw.2 acc1
    refine ⟨acc2, ?_⟩
    unfold collectSamples
    rw [hp]
    exact hrest

/-- A test case whose success rates are both zero contributes nothing and
cannot raise. -/
theorem processTestCase_zero (acc : StreamAcc) (tc : StreamingTestCase)
    (hz : zeroRatesB tc = true) : processTestCase acc tc = .ok acc := by
  obtain ⟨so, no⟩ := tc
  rcases so with _ | s
  · rfl
  rcases no with _ | ns
  · rfl
  obtain ⟨sm, st, sr⟩ := s
  obtain ⟨nm, nr⟩ := ns
  unfold zeroRatesB at hz
  dsimp only at hz
  split at hz
  next hp =>
    obtain ⟨h1, h2⟩ := hp
    cases h1
    cases h2
    rfl
  next => cases hz

/-- The loop is the identity on the accumulator when every test case has
only zero success rates. -/
theorem collectSamples_zero : ∀ (lst : List StreamingTestCase), lst.all zeroRatesB = true →
    ∀ acc, collectSamples acc lst = .ok acc := by
  intro lst
  induction lst with
  | nil => intro _ acc; rfl
  | cons tc rest ih =>
    intro hz acc
    rw [List.all_cons, Bool.and_eq_true] at hz
    unfold collectSamples
    rw [processTestCase_zero acc tc hz.1]
    dsimp only
    exact ih hz.2 acc

/-- The streaming section leaves the metrics untouched when every test case
has only zero success rates. -/
theorem streamPhase_zero (r : ResultsRec) (hz : allZeroRates r = true) (m : Metrics) :
    streamPhase r m = .ok m := by
  unfold streamPhase
  unfold allZeroRates at hz
  cases hs : r.streaming with
  | none => rfl
  | some lst =>
    rw [hs] at hz
    dsimp only at hz ⊢
    by_cases hl : lst.length > 0
    · rw [if_pos hl, collectSamples_zero lst hz emptyAcc]
      rfl
    · rw [if_neg hl]

/-- Without a positive warm-cache mean, the caching section can at most
overwrite the cached success rate. -/
theorem cachePhase_noWarm (r : ResultsRec) (m : Metrics) (hw : noWarmCacheB r = true) :
    ∃ sr, cachePhase r m = { m with cached := { m.cached with success_rate := sr } } := by
  obtain ⟨rs, rc⟩ := r
  rcases rc with _ | cs
  · exact ⟨m.cached.success_rate, rfl⟩
  rcases cs with _ | ⟨c0, rest⟩
  · exact ⟨m.cached.success_rate, rfl⟩
  obtain ⟨ov⟩ := c0
  rcases ov with _ | ov
  · exact ⟨m.cached.success_rate, rfl⟩
  obtain ⟨perf, sro⟩ := ov
  rcases perf with _ | perf
  · exact ⟨m.cached.success_rate, rfl⟩
  obtain ⟨wcm⟩ := perf
  unfold noWarmCacheB firstWarmCacheMean at hw
  dsimp only at hw
  rcases wcm with _ | w
  · rcases sro with _ | v
    · exact ⟨m.cached.success_rate, rfl⟩
    · exact ⟨v, rfl⟩
  · dsimp only at hw
    have hle : w ≤ 0 := by
      by_contra hgt
      rw [if_neg hgt] at hw
      cases hw
    have hnp : ¬ w > 0 := not_lt.mpr hle
    rcases sro with _ | v
    · refine ⟨m.cached.success_rate, ?_⟩
      unfold cachePhase
      dsimp only
      rw [if_neg hnp]
    · refine ⟨v, ?_⟩
      unfold cachePhase
      dsimp only
      rw [if_neg hnp]

theorem applyStreamAcc_streaming_set (acc : StreamAcc) (m : Metrics)
    (h : acc.streaming_times ≠ []) :
    (applyStreamAcc acc m).streaming = streamBucket acc := by
  unfold applyStreamAcc
  dsimp only
  rw [if_pos h]
  split <;> rfl

theorem applyStreamAcc_plain_set (acc : StreamAcc) (m : Metrics)
    (h : acc.nonstreaming_times ≠ []) :
    (applyStreamAcc acc m).plain_llm = plainBucket acc := by
  unfold applyStreamAcc
  dsimp only
  rw [if_pos h]

theorem bucketSpec_ne (d b : TechniqueMetrics) (h : bucketSpec d b) (hne : b ≠ d) :
    0 < b.response_time ∧ b.throughput = 1000 / b.response_time := by
  rcases h with he | hg
  · exact absurd he hne
  · exact hg

/-! ## Claim theorems -/

/-- C1, counterexample: on a record whose single streaming test case has a
positive success rate, mean 500 and ttfb mean 0, extraction succeeds and
leaves the streaming bucket with `ttfb = 0`: a field at or below zero
survives to rendering without being overwritten (the fill pass only tests
`response_time`), refuting the claim that every field of every bucket is
strictly positive. -/
theorem fill_pass_leaves_nonpositive_ttfb :
    extract_metrics_from_data (some ttfbZeroRecord) =
      .ok { plain_llm := ⟨20000, 20000, 90, 1/20⟩, streaming := ⟨500, 0, 100, 2⟩,
            cached := defaultCached, combined := defaultCombined } ∧
    ¬ 0 < (⟨500, 0, 100, 2⟩ : TechniqueMetrics).ttfb ∧
    (⟨500, 0, 100, 2⟩ : TechniqueMetrics) ≠ defaultStreaming :=
  ⟨rfl, by decide, by decide⟩

/-- C1 (amended): a technique bucket is overwritten wholesale with its
default exactly when its computed `response_time` is at or below zero;
consequently every bucket's `response_time` and `throughput` are strictly
positive after extraction, but `ttfb` and `success_rate` may remain at or
below zero. -/
theorem extract_pos_response_time_throughput (data : Option BenchmarkRecord) (m : Metrics)
    (h : extract_metrics_from_data data = .ok m) :
    (0 < m.plain_llm.response_time ∧ 0 < m.plain_llm.throughput) ∧
    (0 < m.streaming.response_time ∧ 0 < m.streaming.throughput) ∧
    (0 < m.cached.response_time ∧ 0 < m.cached.throughput) ∧
    (0 < m.combined.response_time ∧ 0 < m.combined.throughput) := by
  obtain ⟨b1, b2, b3, b4, _, _⟩ := extract_ok_spec data m h
  exact ⟨bucketSpec_pos _ _ (by decide) (by decide) b1,
    bucketSpec_pos _ _ (by decide) (by decide) b2,
    bucketSpec_pos _ _ (by decide) (by decide) b3,
    bucketSpec_pos _ _ (by decide) (by decide) b4⟩

/-- C1 witness: the amended theorem applied to the no-data extraction. -/
theorem extract_pos_response_time_throughput_witness :
    (0 < allDefaults.plain_llm.response_time ∧ 0 < allDefaults.plain_llm.throughput) ∧
    (0 < allDefaults.streaming.response_time ∧ 0 < allDefaults.streaming.throughput) ∧
    (0 < allDefaults.cached.response_time ∧ 0 < allDefaults.cached.throughput) ∧
    (0 < allDefaults.combined.response_time ∧ 0 < allDefaults.combined.throughput) :=
  extract_pos_response_time_throughput none allDefaults rfl

/-- C2, counterexample: the hardcoded default plain bucket has
`throughput = 0.039`, which is not `1000 / 25800`: the exact reciprocal law
fails on the default buckets the Extractor can return. -/
theorem default_throughput_not_reciprocal :
    extract_metrics_from_data none = .ok allDefaults ∧
    0 < allDefaults.plain_llm.response_time ∧
    allDefaults.plain_llm.throughput ≠ 1000 / allDefaults.plain_llm.response_time :=
  ⟨rfl, by decide, by decide⟩

/-- C2 (amended): every bucket the Extractor returns that differs from its
technique's hardcoded default has a positive response time and throughput
exactly `1000 / response_time`; the default buckets instead carry rounded
throughput constants. -/
theorem computed_throughput_reciprocal (data : Option BenchmarkRecord) (m : Metrics)
    (h : extract_metrics_from_data data = .ok m) :
    (m.plain_llm ≠ defaultPlain →
      0 < m.plain_llm.response_time ∧ m.plain_llm.throughput = 1000 / m.plain_llm.response_time) ∧
    (m.streaming ≠ defaultStreaming →
      0 < m.streaming.response_time ∧ m.streaming.throughput = 1000 / m.streaming.response_time) ∧
    (m.cached ≠ defaultCached →
      0 < m.cached.response_time ∧ m.cached.throughput = 1000 / m.cached.response_time) ∧
    (m.combined ≠ defaultCombined →
      0 < m.combined.response_time ∧ m.combined.throughput = 1000 / m.combined.response_time) := by
  obtain ⟨b1, b2, b3, b4, _, _⟩ := extract_ok_spec data m h
  exact ⟨bucketSpec_ne _ _ b1, bucketSpec_ne _ _ b2, bucketSpec_ne _ _ b3, bucketSpec_ne _ _ b4⟩

/-- C2 witness: the amended theorem applied to the spec's worked streaming
example, whose streaming bucket (500 ms) indeed has throughput 2 = 1000/500. -/
theorem computed_throughput_reciprocal_witness :
    0 < specExampleMetrics.streaming.response_time ∧
    specExampleMetrics.streaming.throughput = 1000 / specExampleMetrics.streaming.response_time :=
  (computed_throughput_reciprocal (some specExampleRecord) specExampleMetrics rfl).2.1
    (by decide)

/-- C3, counterexample: a test case that has both sub-records and a
positive `streaming.successRate` but no `mean` key makes the Extractor
raise a `KeyError` instead of returning metrics, refuting the claim that it
never fails on records whose test cases may lack expected sub-fields. -/
theorem extract_keyerror_on_missing_subfield :
    extract_metrics_from_data (some missingMeanRecord) = .error "KeyError: mean" := rfl

/-- C3 (amended): the Extractor returns a full metrics map for every
optional record (including `None` and records without `results`) provided
every streaming test case that carries both sub-records is fully populated
(`successRate` present, and `mean` / `ttfb.mean` present when the
corresponding rate is positive); test cases lacking either sub-record are
skipped safely, and the caching section is fully guarded. -/
theorem extract_total_on_wellformed (data : Option BenchmarkRecord)
    (h : wfDataB data = true) : ∃ m, extract_metrics_from_data data = .ok m := by
  cases data with
  | none => exact ⟨allDefaults, rfl⟩
  | some rec =>
    unfold wfDataB at h
    dsimp only at h
    unfold extract_metrics_from_data
    dsimp only
    cases hres : rec.results with
    | none => exact ⟨allDefaults, rfl⟩
    | some r =>
      rw [hres] at h
      dsimp only at h
      have hst : ∃ m1, streamPhase r initialMetrics = .ok m1 := by
        unfold streamPhase
        cases hstr : r.streaming with
        | none => exact ⟨initialMetrics, rfl⟩
        | some lst =>
          rw [hstr] at h
          dsimp only at h ⊢
          by_cases hl : lst.length > 0
          · rw [if_pos hl]
            obtain ⟨acc2, hacc⟩ := collectSamples_wf lst h emptyAcc
            rw [hacc]
            exact ⟨_, rfl⟩
          · rw [if_neg hl]
            exact ⟨initialMetrics, rfl⟩
      obtain ⟨m1, hm1⟩ := hst
      dsimp only
      rw [hm1]
      exact ⟨_, rfl⟩

/-- C3 witness: the amended theorem applied to the spec's worked example
record, which is fully populated. -/
theorem extract_total_on_wellformed_witness :
    wfDataB (some specExampleRecord) = true ∧
    ∃ m, extract_metrics_from_data (some specExampleRecord) = .ok m :=
  ⟨rfl, extract_total_on_wellformed (some specExampleRecord) rfl⟩

/-- C4: after every successful extraction, either combined was derived
from a cached bucket built from real caching data (response time 0.8 times
cached, ttfb 0.8 times cached, success rate `min 99 (cached + 1)`,
throughput exactly the reciprocal of the derived response time) with
neither bucket equal to its static default — so combined is never derived
from cached's default bucket — or cached had no real data and both
combined and cached fell back to their static defaults together; and the
spec's worked caching example (warmCacheMean 200, overallSuccessRate 95)
yields cached response time 200, cached throughput 5.0 and combined
response time 160. -/
theorem combined_derived_from_cached (data : Option BenchmarkRecord) (m : Metrics)
    (h : extract_metrics_from_data data = .ok m) :
    combinedRel m ∧
    (m.cached = defaultCached → m.combined = defaultCombined) ∧
    extract_metrics_from_data (some cachingExampleRecord) = .ok cachingExampleMetrics ∧
    cachingExampleMetrics.cached.response_time = 200 ∧
    cachingExampleMetrics.cached.throughput = 5 ∧
    cachingExampleMetrics.combined.response_time = 160 ∧
    cachingExampleMetrics.combined.response_time =
      cachingExampleMetrics.cached.response_time * (4/5) := by
  obtain ⟨_, _, _, _, hrel, _⟩ := extract_ok_spec data m h
  refine ⟨hrel, ?_, rfl, rfl, rfl, rfl, by decide⟩
  intro he
  rcases hrel with ⟨h1, _⟩ | ⟨hne, _⟩
  · exact h1
  · exact absurd he hne

/-- C4 witness: the theorem applied to the worked caching example itself. -/
theorem combined_derived_from_cached_witness :
    combinedRel cachingExampleMetrics ∧
    cachingExampleMetrics.combined.response_time = 160 :=
  ⟨(combined_derived_from_cached (some cachingExampleRecord) cachingExampleMetrics rfl).1,
   (combined_derived_from_cached (some cachingExampleRecord) cachingExampleMetrics rfl).2.2.2.2.2.1⟩

/-- C5, counterexample: a test case with `streaming.successRate = 100 > 0`
and full streaming data but no `nonStreaming` sub-record contributes
nothing at all — the loop requires both sub-records — so the streaming
bucket falls back to its default (3200 ms) rather than the case's mean
(500 ms), refuting the claim that every test case with a positive
streaming success rate contributes to the streaming means. -/
theorem positive_rate_case_skipped_without_nonstreaming :
    streamOnlyCase.streaming = some ⟨some 500, some ⟨some 100⟩, some 100⟩ ∧
    streamOnlyCase.nonStreaming = none ∧
    extract_metrics_from_data (some streamOnlyRecord) = .ok allDefaults ∧
    allDefaults.streaming.response_time ≠ 500 :=
  ⟨rfl, rfl, rfl, by decide⟩

/-- C5 (amended): over the test cases that carry both sub-records, every
case with positive `streaming.successRate` contributes its mean, ttfb mean
and rate to the streaming arithmetic means, and every case with positive
`nonStreaming.successRate` contributes its mean and rate to the plain-LLM
means (whenever those means are positive so that the computed buckets
survive the fill pass); plain ttfb mirrors plain response time; and the
spec's worked single-case example yields exactly the stated values. -/
theorem streaming_contribution_means (rec : BenchmarkRecord) (r : ResultsRec)
    (lst : List StreamingTestCase) (m : Metrics)
    (hres : rec.results = some r) (hs : r.streaming = some lst)
    (hm : extract_metrics_from_data (some rec) = .ok m) :
    (streamSampleTimes lst ≠ [] → 0 < listMean (streamSampleTimes lst) →
      m.streaming.response_time = listMean (streamSampleTimes lst) ∧
      m.streaming.ttfb = listMean (streamSampleTtfb lst) ∧
      m.streaming.success_rate = listMean (streamSampleRates lst) ∧
      m.streaming.throughput = 1000 / listMean (streamSampleTimes lst)) ∧
    (nonStreamTimes lst ≠ [] → 0 < listMean (nonStreamTimes lst) →
      m.plain_llm.response_time = listMean (nonStreamTimes lst) ∧
      m.plain_llm.ttfb = m.plain_llm.response_time ∧
      m.plain_llm.success_rate = listMean (nonStreamRates lst) ∧
      m.plain_llm.throughput = 1000 / listMean (nonStreamTimes lst)) ∧
    (extract_metrics_from_data (some specExampleRecord) = .ok specExampleMetrics ∧
      specExampleMetrics.streaming.response_time = 500 ∧
      specExampleMetrics.streaming.ttfb = 100 ∧
      specExampleMetrics.plain_llm.response_time = 20000 ∧
      specExampleMetrics.plain_llm.ttfb = 20000 ∧
      specExampleMetrics.plain_llm.throughput = 1/20) := by
  unfold extract_metrics_from_data at hm
  dsimp only at hm
  rw [hres] at hm
  dsimp only at hm
  unfold streamPhase at hm
  rw [hs] at hm
  dsimp only at hm
  rcases lst with _ | ⟨tc0, rest⟩
  · exact ⟨fun h1 => absurd rfl h1, fun h1 => absurd rfl h1,
      rfl, rfl, rfl, rfl, rfl, rfl⟩
  rw [if_pos (by simp : (tc0 :: rest).length > 0)] at hm
  cases hc : collectSamples emptyAcc (tc0 :: rest) with
  | error e => rw [hc] at hm; cases hm
  | ok acc =>
    rw [hc] at hm
    dsimp only at hm
    cases hm
    obtain ⟨e1, e2, e3, e4, e5⟩ := collectSamples_from_empty _ _ hc
    obtain ⟨cp_pl, cp_st, cp_cb, _⟩ := cachePhase_facts r (applyStreamAcc acc initialMetrics)
    obtain ⟨bp_pl, bp_st, bp_ca, _, _⟩ :=
      combinedPhase_facts (cachePhase r (applyStreamAcc acc initialMetrics))
    refine ⟨?_, ?_, rfl, rfl, rfl, rfl, rfl, rfl⟩
    · intro hne hpos
      have hset : (applyStreamAcc acc initialMetrics).streaming = streamBucket acc :=
        applyStreamAcc_streaming_set acc _ (by rw [e1]; exact hne)
      have hst3 : (combinedPhase (cachePhase r (applyStreamAcc acc initialMetrics))).streaming
          = streamBucket acc := by
        rw [bp_st, cp_st, hset]
      have hrt : 0 < (streamBucket acc).response_time := by
        unfold streamBucket
        dsimp only
        rw [e1]
        exact hpos
      have efill : (fillPhase (combinedPhase (cachePhase r (applyStreamAcc acc initialMetrics)))).streaming
          = fillBucket defaultStreaming
              (combinedPhase (cachePhase r (applyStreamAcc acc initialMetrics))).streaming := rfl
      rw [efill, hst3, fillBucket_keep _ _ hrt]
      unfold streamBucket
      dsimp only
      rw [e1, e2, e3]
      refine ⟨rfl, rfl, rfl, ?_⟩
      rw [if_pos hpos]
    · intro hne hpos
      have hset : (applyStreamAcc acc initialMetrics).plain_llm = plainBucket acc :=
        applyStreamAcc_plain_set acc _ (by rw [e4]; exact hne)
      have hpl3 : (combinedPhase (cachePhase r (applyStreamAcc acc initialMetrics))).plain_llm
          = plainBucket acc := by
        rw [bp_pl, cp_pl, hset]
      have hrt : 0 < (plainBucket acc).response_time := by
        unfold plainBucket
        dsimp only
        rw [e4]
        exact hpos
      have efill : (fillPhase (combinedPhase (cachePhase r (applyStreamAcc acc initialMetrics)))).plain_llm
          = fillBucket defaultPlain
              (combinedPhase (cachePhase r (applyStreamAcc acc initialMetrics))).plain_llm := rfl
      rw [efill, hpl3, fillBucket_keep _ _ hrt]
      unfold plainBucket
      dsimp only
      rw [e4, e5]
      refine ⟨rfl, rfl, rfl, ?_⟩
      rw [if_pos hpos]

/-- C5 witness: the amended theorem applied to the spec's worked example. -/
theorem streaming_contribution_means_witness :
    specExampleMetrics.streaming.response_time
      = listMean (streamSampleTimes [specExampleCase]) ∧
    specExampleMetrics.streaming.ttfb = listMean (streamSampleTtfb [specExampleCase]) ∧
    specExampleMetrics.streaming.success_rate
      = listMean (streamSampleRates [specExampleCase]) ∧
    specExampleMetrics.streaming.throughput
      = 1000 / listMean (streamSampleTimes [specExampleCase]) :=
  (streaming_contribution_means specExampleRecord _ [specExampleCase] specExampleMetrics
    rfl rfl rfl).1 (by decide) (by decide)

/-- C6, counterexample: on a record in which every successRate field
(streaming, nonStreaming and the caching overallSuccessRate) is 0 but the
caching data carries `warmCacheMean = 200`, the cached bucket becomes
`⟨200, 200, 0, 5⟩` — not the cached default — refuting the claim that zero
success rates force the hardcoded default buckets. -/
theorem zero_rates_with_warm_cache_not_default :
    extract_metrics_from_data (some zeroRateCachingRecord) =
      .ok { plain_llm := defaultPlain, streaming := defaultStreaming,
            cached := ⟨200, 200, 0, 5⟩, combined := ⟨160, 160, 1, 25/4⟩ } ∧
    allZeroRates { streaming := some [zeroRateCase], caching := none } = true ∧
    (⟨200, 200, 0, 5⟩ : TechniqueMetrics) ≠ defaultCached :=
  ⟨rfl, rfl, by decide⟩

/-- C6 (amended): when every streaming test case carries only zero success
rates and the caching data carries no positive warm-cache mean, the
Extractor yields exactly the four hardcoded default buckets. -/
theorem zero_rates_yield_defaults (rec : BenchmarkRecord) (r : ResultsRec)
    (hres : rec.results = some r) (hz : allZeroRates r = true)
    (hw : noWarmCacheB r = true) :
    extract_metrics_from_data (some rec) = .ok allDefaults := by
  unfold extract_metrics_from_data
  dsimp only
  rw [hres]
  dsimp only
  rw [streamPhase_zero r hz initialMetrics]
  dsimp only
  obtain ⟨sr, hcache⟩ := cachePhase_noWarm r initialMetrics hw
  rw [hcache]
  rfl

/-- C6 witness: the amended theorem applied to a record whose only test
case has both success rates 0 and which has no caching data. -/
theorem zero_rates_yield_defaults_witness :
    extract_metrics_from_data (some zeroRateOnlyRecord) = .ok allDefaults :=
  zero_rates_yield_defaults zeroRateOnlyRecord _ rfl rfl rfl

/-- C7: with a missing input file, the run substitutes an empty record, the
extraction yields exactly the four default buckets, the rendered table is
`table_data allDefaults`, and both the table cell and the CSV text carry
"25.8s" as the Plain LLM entry of the first data row (the quoted second
field of the second CSV line). -/
theorem missing_file_defaults_and_csv_cell (now : String) :
    extract_metrics_from_data (some (substituteData now)) = .ok allDefaults ∧
    run_analysis_table ReadOutcome.missing now = .ok (table_data allDefaults) ∧
    ((table_data allDefaults).getD 1 []).getD 1 "" = "25.8s" ∧
    (splitChar ',' ((splitChar '\n' (save_table_as_csv (table_data allDefaults))).getD 1 "")).getD 1 ""
      = "\"25.8s\"" :=
  ⟨rfl, rfl, rfl, rfl⟩

/-- C8: the loader converts every raised read or parse failure into the
no-data result `none`, and it returns a record exactly when the file
existed and parsed to that record. -/
theorem loader_converts_errors_to_none (o : ReadOutcome) :
    ((∃ e, loadBody o = .error e) → load_latest_results o = none) ∧
    (∀ rec, load_latest_results o = some rec ↔ o = ReadOutcome.parsed rec) := by
  cases o with
  | missing =>
    refine ⟨fun _ => rfl, fun rec => ⟨fun h => ?_, fun h => ?_⟩⟩
    · cases h
    · cases h
  | readFailure e =>
    refine ⟨fun _ => rfl, fun rec => ⟨fun h => ?_, fun h => ?_⟩⟩
    · cases h
    · cases h
  | parseFailure e =>
    refine ⟨fun _ => rfl, fun rec => ⟨fun h => ?_, fun h => ?_⟩⟩
    · cases h
    · cases h
  | parsed rec0 =>
    refine ⟨fun he => ?_, fun rec => ⟨fun h => ?_, fun h => ?_⟩⟩
    · obtain ⟨e, he⟩ := he
      cases he
    · cases h
      rfl
    · cases h
      rfl

/-- C8 witness: an unreadable file is converted to the no-data result. -/
theorem loader_converts_errors_to_none_witness :
    load_latest_results (ReadOutcome.readFailure "disk error") = none :=
  (loader_converts_errors_to_none (ReadOutcome.readFailure "disk error")).1
    ⟨"disk error", rfl⟩

/-- C9: for every metrics map, the CSV text written by the table writer is
exactly the spec-side rendering (each field wrapped in double quotes,
joined by commas, one line per row) of the header row followed by the cell
rows handed to the on-figure table, and the shared table has exactly seven
rows (header plus six metric rows). -/
theorem csv_equals_figure_table_rendering (m : Metrics) :
    save_table_as_csv (table_data m) =
      specRenderTable ((figure_table (table_data m)).colLabels ::
        (figure_table (table_data m)).cellText) ∧
    (table_data m).length = 7 :=
  ⟨rfl, rfl⟩

/-- C10: the CSV bytes produced by a full run depend only on the outcome of
reading the input file, not on the wall-clock timestamp read when the input
is absent: two runs over the same input state agree byte for byte. -/
theorem reporter_csv_deterministic (o : ReadOutcome) (t1 t2 : String) :
    reporter_csv o t1 = reporter_csv o t2 := by
  cases o <;> rfl

end Visualizer
